import Mathlib

set_option linter.unusedSectionVars false

/-!
Shallow embedding of `src/app.py` (AgroFertilizer recommendation service).

Python dictionaries are modelled as association lists in insertion order
(`List (α × β)` with unique keys for genuine dicts); `dict.get` is the first
matching entry.  The pandas single-row `DataFrame` built in
`recommend_fertilizer` is likewise an association list from column name to
value, in column order: assigning `df[col] = v` replaces the value of every
existing column named `col`, and *appends* a fresh column at the end when
`col` is absent (pandas semantics).  Python truthiness of an optional string
(`if not soil_name`) is `none` or the empty string.

The scaler and model are external pickled artifacts; they are embedded as
opaque function parameters returning `Except` (a raised exception is an
`Except.error`), so theorems can quantify over every possible behaviour of
those collaborators.
-/

namespace AgroFertilizer

/-- `dict.get k`: first entry with the given key, if any. -/
def dictGet [BEq α] (d : List (α × β)) (k : α) : Option β :=
  (d.find? (fun p => p.1 == k)).map (fun p => p.2)

/-- Replace the value of every entry whose key is `k` (positions kept). -/
def pyReplace [BEq α] : List (α × β) → α → β → List (α × β)
  | [], _, _ => []
  | p :: d, k, v => (if p.1 == k then (k, v) else p) :: pyReplace d k v

/-- `k in d` for a dict / `col in df.columns` for the one-row DataFrame. -/
def hasKey [BEq α] (d : List (α × β)) (k : α) : Bool :=
  d.any (fun p => p.1 == k)

/-- `d[k] = v`: update in place when the key is present, append otherwise.
This is both Python dict assignment and pandas column assignment. -/
def pyInsert [BEq α] (d : List (α × β)) (k : α) (v : β) : List (α × β) :=
  if hasKey d k then pyReplace d k v else d ++ [(k, v)]

/-- `{v: k for k, v in m.items()}` — app.py lines 35-37.  Iterates the forward
mapping in order, inserting with dict semantics (a repeated code keeps its
first position but takes the later name's value). -/
def reverseMap (m : List (String × Int)) : List (Int × String) :=
  m.foldl (fun acc p => pyInsert acc p.2 p.1) []

/-- The `backend_mappings` pickle: three forward name-to-code mappings. -/
structure BackendMappings where
  soil_type_map : List (String × Int)
  crop_type_map : List (String × Int)
  fertilizer_map : List (String × Int)
deriving DecidableEq, Repr

/-- app.py line 35. -/
def reverse_soil_map (m : BackendMappings) : List (Int × String) :=
  reverseMap m.soil_type_map

/-- app.py line 36. -/
def reverse_crop_map (m : BackendMappings) : List (Int × String) :=
  reverseMap m.crop_type_map

/-- app.py line 37. -/
def reverse_fertilizer_map (m : BackendMappings) : List (Int × String) :=
  reverseMap m.fertilizer_map

/-- The `FertilizerInput` pydantic model (app.py lines 43-51). -/
structure FertilizerInput where
  Temparature : Int
  Humidity : Int
  Moisture : Int
  Soil_Type_ID : Int
  Crop_Type_ID : Int
  Nitrogen : Int
  Potassium : Int
  Phosphorous : Int
deriving DecidableEq, Repr

/-- `pd.DataFrame(0, index=[0], columns=model_columns)` (app.py line 82):
one row, every schema column present with value 0, in schema order. -/
def zeroRow (cols : List String) : List (String × Int) :=
  cols.map (fun c => (c, 0))

/-- `input_df[k] = v` (app.py lines 83-88): pandas sets the column when it
exists and appends it at the end when it does not. -/
def setCol (r : List (String × Int)) (k : String) (v : Int) : List (String × Int) :=
  pyInsert r k v

/-- `if k in input_df.columns: input_df[k] = v` (app.py lines 99-102). -/
def setColIfPresent (r : List (String × Int)) (k : String) (v : Int) :
    List (String × Int) :=
  if hasKey r k then pyReplace r k v else r

/-- Value of a column of the one-row DataFrame (0 when absent, matching the
all-zero initialisation). -/
def rowGet (r : List (String × Int)) (c : String) : Int :=
  (dictGet r c).getD 0

/-- app.py lines 82-88: the zero row with the six numeric input fields
assigned into their like-named columns, in source order. -/
def numericRow (cols : List String) (data : FertilizerInput) : List (String × Int) :=
  setCol (setCol (setCol (setCol (setCol (setCol (zeroRow cols)
    "Temparature" data.Temparature)
    "Humidity" data.Humidity)
    "Moisture" data.Moisture)
    "Nitrogen" data.Nitrogen)
    "Potassium" data.Potassium)
    "Phosphorous" data.Phosphorous

/-- app.py lines 82-102: the full feature row — numeric fields, then the
soil and crop one-hot columns, each set to 1 only when present in the
current columns. -/
def buildRow (cols : List String) (data : FertilizerInput)
    (soil_name crop_name : String) : List (String × Int) :=
  setColIfPresent
    (setColIfPresent (numericRow cols data) ("Soil_Type_" ++ soil_name) 1)
    ("Crop_Type_" ++ crop_name) 1

/-- Python truthiness test `not x` on an optional string: true exactly for
`None` and the empty string. -/
def pyFalsy : Option String → Bool
  | none => true
  | some s => s == ""

/-- Outcome of a request handler: a JSON body or a raised `HTTPException`. -/
inductive RecOutcome where
  | ok (recommended_fertilizer : String)
  | httpError (status : Nat) (detail : String)
deriving DecidableEq, Repr

/-- `recommend_fertilizer` (app.py lines 79-115).  `scaler` embeds
`scaler.transform` and `predict` embeds `model.predict(...)[0]`; an
`Except.error` is a raised exception, which the handler's
`except Exception` clause turns into a per-request HTTP 500 (lines 114-115).
The source assigns the numeric columns (lines 83-88) before the category
check (lines 90-94); the assignment is pure and its result is unused on the
400 path, so it is bound first here exactly as in the source. -/
def recommend_fertilizer {σ : Type} (m : BackendMappings) (model_columns : List String)
    (scaler : List (String × Int) → Except String σ)
    (predict : σ → Except String Int)
    (data : FertilizerInput) : RecOutcome :=
  let input_df0 := numericRow model_columns data
  let soil_name := dictGet (reverse_soil_map m) data.Soil_Type_ID
  let crop_name := dictGet (reverse_crop_map m) data.Crop_Type_ID
  if pyFalsy soil_name || pyFalsy crop_name then
    .httpError 400 "Invalid Soil Type or Crop Type ID provided."
  else
    let soil_col := "Soil_Type_" ++ soil_name.getD ""
    let crop_col := "Crop_Type_" ++ crop_name.getD ""
    let input_df := setColIfPresent (setColIfPresent input_df0 soil_col 1) crop_col 1
    match scaler input_df with
    | .error e => .httpError 500 ("An internal server error occurred: " ++ e)
    | .ok input_scaled =>
      match predict input_scaled with
      | .error e => .httpError 500 ("An internal server error occurred: " ++ e)
      | .ok predicted_fertilizer_num =>
        let recommendation := dictGet (reverse_fertilizer_map m) predicted_fertilizer_num
        if pyFalsy recommendation then
          .httpError 500 "Could not map prediction to a fertilizer name."
        else
          .ok (recommendation.getD "")

/-- `get_categories` (app.py lines 72-77): each forward mapping enumerated
as (id, name) pairs in mapping-insertion order. -/
def get_categories (m : BackendMappings) :
    List (Int × String) × List (Int × String) :=
  (m.soil_type_map.map (fun p => (p.2, p.1)),
   m.crop_type_map.map (fun p => (p.2, p.1)))

/-- The process-wide artifacts of app.py lines 24-37: model, scaler, column
list, forward mappings and the three precomputed reverse mappings, as one
state record so that request handlers can be stated as state transformers. -/
structure AppState (σ : Type) where
  model : σ → Except String Int
  scaler : List (String × Int) → Except String σ
  model_columns : List String
  backend_mappings : BackendMappings
  reverse_soil_map : List (Int × String)
  reverse_crop_map : List (Int × String)
  reverse_fertilizer_map : List (Int × String)

/-- Startup (app.py lines 24-37): artifacts loaded once, the three reverse
maps derived from the forward mappings. -/
def loadState {σ : Type} (model : σ → Except String Int)
    (scaler : List (String × Int) → Except String σ)
    (model_columns : List String) (bm : BackendMappings) : AppState σ :=
  ⟨model, scaler, model_columns, bm,
   reverseMap bm.soil_type_map, reverseMap bm.crop_type_map,
   reverseMap bm.fertilizer_map⟩

/-- `recommend_fertilizer` with the shared artifacts threaded as explicit
state: every access to a startup artifact reads the state and passes it on
unchanged (the source only ever reads the globals; the one mutated object,
`input_df`, is created inside the request).  The handler returns its outcome
together with the state it leaves behind. -/
def recommendSt {σ : Type} (st : AppState σ) (data : FertilizerInput) :
    RecOutcome × AppState σ :=
  let (cols, st) := (st.model_columns, st)
  let input_df0 := numericRow cols data
  let (rsm, st) := (st.reverse_soil_map, st)
  let soil_name := dictGet rsm data.Soil_Type_ID
  let (rcm, st) := (st.reverse_crop_map, st)
  let crop_name := dictGet rcm data.Crop_Type_ID
  if pyFalsy soil_name || pyFalsy crop_name then
    (.httpError 400 "Invalid Soil Type or Crop Type ID provided.", st)
  else
    let soil_col := "Soil_Type_" ++ soil_name.getD ""
    let crop_col := "Crop_Type_" ++ crop_name.getD ""
    let input_df := setColIfPresent (setColIfPresent input_df0 soil_col 1) crop_col 1
    let (sc, st) := (st.scaler, st)
    match sc input_df with
    | .error e => (.httpError 500 ("An internal server error occurred: " ++ e), st)
    | .ok input_scaled =>
      let (md, st) := (st.model, st)
      match md input_scaled with
      | .error e => (.httpError 500 ("An internal server error occurred: " ++ e), st)
      | .ok predicted_fertilizer_num =>
        let (rfm, st) := (st.reverse_fertilizer_map, st)
        let recommendation := dictGet rfm predicted_fertilizer_num
        if pyFalsy recommendation then
          (.httpError 500 "Could not map prediction to a fertilizer name.", st)
        else
          (.ok (recommendation.getD ""), st)

/-- `get_categories` as a state transformer over the shared artifacts. -/
def get_categoriesSt {σ : Type} (st : AppState σ) :
    (List (Int × String) × List (Int × String)) × AppState σ :=
  let (bm, st) := (st.backend_mappings, st)
  (get_categories bm, st)

/-! ### Concrete fixtures, used to witness the theorems below -/

/-- A small concrete artifact set in the shape of the pickled mappings. -/
def exMappings : BackendMappings :=
  ⟨[("Loamy", 2), ("Sandy", 4)], [("Sugarcane", 10), ("Maize", 3)],
   [("Urea", 0), ("DAP", 1)]⟩

/-- A schema with the six numeric columns and four one-hot columns. -/
def exSchema : List String :=
  ["Temparature", "Humidity", "Moisture", "Nitrogen", "Potassium", "Phosphorous",
   "Soil_Type_Loamy", "Soil_Type_Sandy", "Crop_Type_Sugarcane", "Crop_Type_Maize"]

/-- The example request body of app.py lines 54-65. -/
def exInput : FertilizerInput := ⟨34, 65, 54, 2, 10, 38, 0, 0⟩

/-- The example request with a Soil_Type_ID absent from the mapping. -/
def exInputBadSoil : FertilizerInput := ⟨34, 65, 54, 999, 10, 38, 0, 0⟩

/-- A scaler that succeeds (returns the row unchanged). -/
def exScalerOk : List (String × Int) → Except String (List (String × Int)) :=
  fun r => Except.ok r

/-- A model that always predicts class 0. -/
def exPredict0 : List (String × Int) → Except String Int :=
  fun _ => Except.ok 0

/-- A scaler that raises (as the real fitted scaler does on a shape mismatch). -/
def exScalerErr : List (String × Int) → Except String (List (String × Int)) :=
  fun _ => Except.error "Scaler raised"

/-- `exSchema` with the `Temparature` column missing. -/
def exSchemaNoTemp : List String :=
  ["Humidity", "Moisture", "Nitrogen", "Potassium", "Phosphorous",
   "Soil_Type_Loamy", "Crop_Type_Sugarcane"]

/-- A schema containing the six numeric columns but neither `Soil_Type_Loamy`
nor `Crop_Type_Sugarcane`. -/
def exSchemaNoOneHot : List String :=
  ["Temparature", "Humidity", "Moisture", "Nitrogen", "Potassium", "Phosphorous",
   "Soil_Type_Sandy", "Crop_Type_Maize"]

/-- A mapping set whose soil domain maps the empty-string name to code 2. -/
def exMappingsEmptySoil : BackendMappings :=
  ⟨[("", 2)], [("Sugarcane", 10)], [("Urea", 0)]⟩

/-- A mapping set whose fertilizer domain maps the empty-string name to 0. -/
def exMappingsEmptyFert : BackendMappings :=
  ⟨[("Loamy", 2)], [("Sugarcane", 10)], [("", 0)]⟩

/-! ### Lemmas about the dictionary model -/

section DictLemmas

variable {α β : Type} [DecidableEq α] [BEq α] [LawfulBEq α]

theorem dictGet_nil (k : α) : dictGet ([] : List (α × β)) k = none := rfl

theorem dictGet_cons (p : α × β) (d : List (α × β)) (k : α) :
    dictGet (p :: d) k = if p.1 == k then some p.2 else dictGet d k := by
  by_cases h : (p.1 == k) = true
  · unfold dictGet
    rw [@List.find?_cons_of_pos _ (fun q => q.1 == k) p d h]
    simp [h]
  · unfold dictGet
    rw [@List.find?_cons_of_neg _ (fun q => q.1 == k) p d h]
    simp [h]

theorem hasKey_nil (k : α) : hasKey ([] : List (α × β)) k = false := rfl

theorem hasKey_cons (p : α × β) (d : List (α × β)) (k : α) :
    hasKey (p :: d) k = (p.1 == k || hasKey d k) := by
  simp [hasKey]

theorem hasKey_iff_mem (d : List (α × β)) (k : α) :
    hasKey d k = true ↔ k ∈ d.map Prod.fst := by
  unfold hasKey
  rw [List.any_eq_true]
  constructor
  · rintro ⟨x, hx, he⟩
    exact List.mem_map.2 ⟨x, hx, eq_of_beq he⟩
  · intro h
    obtain ⟨x, hx, he⟩ := List.mem_map.1 h
    exact ⟨x, hx, beq_iff_eq.mpr he⟩

theorem hasKey_eq_decide (d : List (α × β)) (k : α) :
    hasKey d k = decide (k ∈ d.map Prod.fst) := by
  by_cases h : k ∈ d.map Prod.fst
  · simp [h, (hasKey_iff_mem d k).2 h]
  · have h2 : hasKey d k = false := by
      rw [← Bool.not_eq_true]
      intro hh
      exact h ((hasKey_iff_mem d k).1 hh)
    simp [h2, h]

theorem dictGet_pyReplace (d : List (α × β)) (k : α) (v : β) (c : α) :
    dictGet (pyReplace d k v) c =
      if c = k ∧ hasKey d k = true then some v else dictGet d c := by
  induction d with
  | nil => simp [pyReplace, hasKey_nil]
  | cons p d ih =>
    by_cases hpk : p.1 = k
    · have hrw : pyReplace (p :: d) k v = (k, v) :: pyReplace d k v := by
        simp [pyReplace, beq_iff_eq, hpk]
      rw [hrw, dictGet_cons, dictGet_cons, hasKey_cons, ih]
      by_cases hck : c = k
      · simp [hck, beq_iff_eq, hpk]
      · have h1 : (k == c) = false := beq_eq_false_iff_ne.mpr (fun e => hck e.symm)
        have h2 : (p.1 == c) = false := by
          rw [hpk]
          exact h1
        simp [h1, h2, hck]
    · have hrw : pyReplace (p :: d) k v = p :: pyReplace d k v := by
        simp [pyReplace, beq_iff_eq, hpk]
      rw [hrw, dictGet_cons, dictGet_cons, hasKey_cons, ih]
      have h1 : (p.1 == k) = false := beq_eq_false_iff_ne.mpr hpk
      by_cases hck : c = k
      · have h2 : (p.1 == c) = false := by
          rw [hck]
          exact h1
        simp [h1, h2, hck]
      · simp [h1, hck]

theorem map_fst_pyReplace (d : List (α × β)) (k : α) (v : β) :
    (pyReplace d k v).map Prod.fst = d.map Prod.fst := by
  induction d with
  | nil => rfl
  | cons p d ih =>
    by_cases h : p.1 = k <;> simp_all [pyReplace]

theorem mem_pyReplace (d : List (α × β)) (k : α) (v : β) (q : α × β)
    (h : q ∈ pyReplace d k v) : q ∈ d ∨ q = (k, v) := by
  induction d with
  | nil => simp [pyReplace] at h
  | cons p d ih =>
    simp only [pyReplace, List.mem_cons] at h
    rcases h with h | h
    · by_cases hpk : (p.1 == k) = true
      · rw [if_pos hpk] at h
        exact Or.inr h
      · rw [if_neg hpk] at h
        exact Or.inl (by rw [h]; exact List.mem_cons_self p d)
    · rcases ih h with h' | h'
      · exact Or.inl (List.mem_cons_of_mem p h')
      · exact Or.inr h'

theorem dictGet_pyInsert (d : List (α × β)) (k : α) (v : β) (c : α) :
    dictGet (pyInsert d k v) c = if c = k then some v else dictGet d c := by
  unfold pyInsert
  by_cases h : hasKey d k
  · simp [h, dictGet_pyReplace]
  · rw [if_neg h]
    unfold dictGet
    rw [List.find?_append]
    by_cases hck : c = k
    · subst hck
      have hn : d.find? (fun p => p.1 == c) = none := by
        rw [List.find?_eq_none]
        intro x hx hxc
        exact h ((hasKey_iff_mem d c).2 (List.mem_map.2 ⟨x, hx, eq_of_beq hxc⟩))
      simp [hn, List.find?]
    · cases hf : d.find? (fun p => p.1 == c) with
      | some q => simp [hf, hck]
      | none =>
        have hkc : ¬((k, v).1 == c) = true := by
          simp only [beq_iff_eq]
          exact fun e => hck e.symm
        simp [hf, hck, List.find?, hkc]

theorem map_fst_pyInsert (d : List (α × β)) (k : α) (v : β) :
    (pyInsert d k v).map Prod.fst =
      if hasKey d k then d.map Prod.fst else d.map Prod.fst ++ [k] := by
  unfold pyInsert
  by_cases h : hasKey d k <;> simp [h, map_fst_pyReplace]

theorem mem_pyInsert (d : List (α × β)) (k : α) (v : β) (q : α × β)
    (h : q ∈ pyInsert d k v) : q ∈ d ∨ q = (k, v) := by
  unfold pyInsert at h
  by_cases hk : hasKey d k
  · rw [if_pos hk] at h
    exact mem_pyReplace d k v q h
  · rw [if_neg hk] at h
    rcases List.mem_append.1 h with h' | h'
    · exact Or.inl h'
    · exact Or.inr (List.mem_singleton.1 h')

end DictLemmas

/-! ### The reverse-map construction (app.py lines 35-37) -/

theorem dictGet_foldl_pyInsert (m : List (String × Int))
    (acc : List (Int × String)) (c : Int) :
    dictGet (m.foldl (fun a p => pyInsert a p.2 p.1) acc) c =
      ((m.reverse.find? (fun p => p.2 == c)).map Prod.fst).or (dictGet acc c) := by
  induction m generalizing acc with
  | nil => simp
  | cons p m ih =>
    rw [List.foldl_cons, ih, List.reverse_cons, List.find?_append]
    cases hf : m.reverse.find? (fun q => q.2 == c) with
    | some q => rfl
    | none =>
      rw [dictGet_pyInsert]
      by_cases hck : c = p.2
      · have h1 : (p.2 == c) = true := beq_iff_eq.mpr hck.symm
        simp [List.find?, h1, hck]
      · have h1 : (p.2 == c) = false :=
          beq_eq_false_iff_ne.mpr (fun e => hck e.symm)
        simp [List.find?, h1, hck]

/-- The reverse mapping sends a code to the *last* name carrying that code in
the forward mapping — Python dict-comprehension semantics: a collision is
silently resolved in favour of the later entry, never reported. -/
theorem dictGet_reverseMap (m : List (String × Int)) (c : Int) :
    dictGet (reverseMap m) c =
      (m.reverse.find? (fun p => p.2 == c)).map Prod.fst := by
  unfold reverseMap
  rw [dictGet_foldl_pyInsert]
  simp [dictGet_nil]

/-- Any name produced by a reverse lookup is a key of the forward mapping. -/
theorem dictGet_reverseMap_mem (m : List (String × Int)) (c : Int) (n : String)
    (h : dictGet (reverseMap m) c = some n) : n ∈ m.map Prod.fst := by
  rw [dictGet_reverseMap] at h
  cases hf : m.reverse.find? (fun p => p.2 == c) with
  | none => rw [hf] at h; exact absurd h (by simp)
  | some q =>
    rw [hf] at h
    have hq : q ∈ m.reverse := List.mem_of_find?_eq_some hf
    have hqm : q ∈ m := List.mem_reverse.1 hq
    have : q.1 = n := by
      simpa using h
    exact this ▸ List.mem_map.2 ⟨q, hqm, rfl⟩

/-! ### Lemmas about the one-row DataFrame -/

theorem rowGet_setCol (r : List (String × Int)) (k : String) (v : Int) (c : String) :
    rowGet (setCol r k v) c = if c = k then v else rowGet r c := by
  unfold rowGet setCol
  rw [dictGet_pyInsert]
  by_cases h : c = k <;> simp [h]

theorem rowGet_setColIfPresent (r : List (String × Int)) (k : String) (v : Int)
    (c : String) :
    rowGet (setColIfPresent r k v) c =
      if c = k ∧ hasKey r k = true then v else rowGet r c := by
  unfold rowGet setColIfPresent
  by_cases h : hasKey r k
  · rw [if_pos h, dictGet_pyReplace]
    by_cases hck : c = k <;> simp [h, hck]
  · rw [if_neg h]
    simp [h]

theorem map_fst_setColIfPresent (r : List (String × Int)) (k : String) (v : Int) :
    (setColIfPresent r k v).map Prod.fst = r.map Prod.fst := by
  unfold setColIfPresent
  by_cases h : hasKey r k
  · rw [if_pos h, map_fst_pyReplace]
  · rw [if_neg h]

theorem hasKey_of_map_fst (r r' : List (String × Int)) (c : String)
    (h : r.map Prod.fst = r'.map Prod.fst) : hasKey r c = hasKey r' c := by
  rw [hasKey_eq_decide, hasKey_eq_decide, h]

theorem rowGet_zeroRow (cols : List String) (c : String) :
    rowGet (zeroRow cols) c = 0 := by
  induction cols with
  | nil => rfl
  | cons a l ih =>
    show rowGet ((a, 0) :: zeroRow l) c = 0
    unfold rowGet at ih ⊢
    rw [dictGet_cons]
    by_cases h : (a, 0).1 == c <;> simp [h, ih]

theorem map_fst_zeroRow (cols : List String) :
    (zeroRow cols).map Prod.fst = cols := by
  induction cols with
  | nil => rfl
  | cons a l ih =>
    show ((a, 0) :: zeroRow l).map Prod.fst = a :: l
    rw [List.map_cons, ih]

theorem map_fst_setCol_present (r : List (String × Int)) (k : String) (v : Int)
    (h : hasKey r k = true) : (setCol r k v).map Prod.fst = r.map Prod.fst := by
  unfold setCol
  rw [map_fst_pyInsert, if_pos h]

theorem map_fst_setCol_absent (r : List (String × Int)) (k : String) (v : Int)
    (h : hasKey r k = false) :
    (setCol r k v).map Prod.fst = r.map Prod.fst ++ [k] := by
  unfold setCol
  rw [map_fst_pyInsert, h]
  rfl

/-- One pandas assignment step in the numeric fill: if the row's columns so
far are the schema followed by the already-assigned names missing from the
schema, then after assigning a fresh name `k` they are the schema followed by
the missing names among `done ++ [k]` — `k` is appended exactly when absent
from the schema. -/
theorem map_fst_setCol_step (cols done : List String) (r : List (String × Int))
    (k : String) (v : Int)
    (hr : r.map Prod.fst = cols ++ done.filter (fun n => decide (n ∉ cols)))
    (hk : k ∉ done) :
    (setCol r k v).map Prod.fst =
      cols ++ (done ++ [k]).filter (fun n => decide (n ∉ cols)) := by
  unfold setCol
  rw [map_fst_pyInsert, List.filter_append]
  by_cases hm : k ∈ cols
  · have hh : hasKey r k = true := by
      rw [hasKey_eq_decide, hr]
      simp [List.mem_append, hm]
    rw [if_pos hh, hr]
    have hfk : List.filter (fun n => decide (n ∉ cols)) [k] = [] := by
      simp [hm]
    rw [hfk, List.append_nil]
  · have hnm : k ∉ cols ++ List.filter (fun n => decide (n ∉ cols)) done := by
      intro hin
      rcases List.mem_append.1 hin with hin | hin
      · exact hm hin
      · exact hk (List.mem_of_mem_filter hin)
    have hh : hasKey r k = false := by
      rw [hasKey_eq_decide, hr]
      simpa using hnm
    have hcond : ¬hasKey r k = true := by
      simp [hh]
    rw [if_neg hcond, hr]
    have hfk : List.filter (fun n => decide (n ∉ cols)) [k] = [k] := by
      simp [hm]
    rw [hfk, List.append_assoc]

/-- Reading the numeric-filled row: the six assignments of app.py lines 83-88,
later assignments inspected first. -/
theorem rowGet_numericRow (cols : List String) (d : FertilizerInput) (c : String) :
    rowGet (numericRow cols d) c =
      if c = "Phosphorous" then d.Phosphorous
      else if c = "Potassium" then d.Potassium
      else if c = "Nitrogen" then d.Nitrogen
      else if c = "Moisture" then d.Moisture
      else if c = "Humidity" then d.Humidity
      else if c = "Temparature" then d.Temparature
      else 0 := by
  unfold numericRow
  rw [rowGet_setCol, rowGet_setCol, rowGet_setCol, rowGet_setCol, rowGet_setCol,
    rowGet_setCol, rowGet_zeroRow]

/-- When all six numeric columns are in the schema, filling them changes no
column names: the row keeps exactly the schema's columns in schema order. -/
theorem map_fst_numericRow (cols : List String) (d : FertilizerInput)
    (hT : "Temparature" ∈ cols) (hH : "Humidity" ∈ cols) (hM : "Moisture" ∈ cols)
    (hN : "Nitrogen" ∈ cols) (hK : "Potassium" ∈ cols) (hP : "Phosphorous" ∈ cols) :
    (numericRow cols d).map Prod.fst = cols := by
  unfold numericRow
  have e0 := map_fst_zeroRow cols
  have s1 := map_fst_setCol_present (zeroRow cols) "Temparature" d.Temparature
    (by rw [hasKey_eq_decide, e0]; simpa using hT)
  rw [e0] at s1
  have s2 := map_fst_setCol_present _ "Humidity" d.Humidity
    (by rw [hasKey_eq_decide, s1]; simpa using hH)
  rw [s1] at s2
  have s3 := map_fst_setCol_present _ "Moisture" d.Moisture
    (by rw [hasKey_eq_decide, s2]; simpa using hM)
  rw [s2] at s3
  have s4 := map_fst_setCol_present _ "Nitrogen" d.Nitrogen
    (by rw [hasKey_eq_decide, s3]; simpa using hN)
  rw [s3] at s4
  have s5 := map_fst_setCol_present _ "Potassium" d.Potassium
    (by rw [hasKey_eq_decide, s4]; simpa using hK)
  rw [s4] at s5
  have s6 := map_fst_setCol_present _ "Phosphorous" d.Phosphorous
    (by rw [hasKey_eq_decide, s5]; simpa using hP)
  rw [s5] at s6
  exact s6

/-- The one-hot stage never adds or removes columns. -/
theorem map_fst_buildRow (cols : List String) (d : FertilizerInput)
    (s t : String) :
    (buildRow cols d s t).map Prod.fst = (numericRow cols d).map Prod.fst := by
  unfold buildRow
  rw [map_fst_setColIfPresent, map_fst_setColIfPresent]

/-- Reading the fully built feature row. -/
theorem rowGet_buildRow (cols : List String) (d : FertilizerInput)
    (s t c : String) :
    rowGet (buildRow cols d s t) c =
      if c = "Crop_Type_" ++ t ∧ hasKey (numericRow cols d) ("Crop_Type_" ++ t) = true
        then 1
      else if c = "Soil_Type_" ++ s ∧ hasKey (numericRow cols d) ("Soil_Type_" ++ s) = true
        then 1
      else rowGet (numericRow cols d) c := by
  unfold buildRow
  rw [rowGet_setColIfPresent,
    hasKey_of_map_fst _ _ _ (map_fst_setColIfPresent (numericRow cols d) ("Soil_Type_" ++ s) 1),
    rowGet_setColIfPresent]

theorem subset_map_fst_setCol (r : List (String × Int)) (k : String) (v : Int)
    (c : String) (hc : c ∈ (setCol r k v).map Prod.fst) :
    c ∈ r.map Prod.fst ∨ c = k := by
  unfold setCol at hc
  rw [map_fst_pyInsert] at hc
  by_cases h : hasKey r k
  · rw [if_pos h] at hc
    exact Or.inl hc
  · rw [if_neg h] at hc
    rcases List.mem_append.1 hc with h' | h'
    · exact Or.inl h'
    · exact Or.inr (List.mem_singleton.1 h')

/-- Every column of the numeric-filled row is a schema column or one of the
six numeric names (the latter only when appended by a pandas assignment to a
missing column). -/
theorem mem_map_fst_numericRow (cols : List String) (d : FertilizerInput)
    (k : String) (h : k ∈ (numericRow cols d).map Prod.fst) :
    k ∈ cols ∨ k = "Temparature" ∨ k = "Humidity" ∨ k = "Moisture" ∨
      k = "Nitrogen" ∨ k = "Potassium" ∨ k = "Phosphorous" := by
  unfold numericRow at h
  rcases subset_map_fst_setCol _ _ _ _ h with h | rfl
  swap
  · simp
  rcases subset_map_fst_setCol _ _ _ _ h with h | rfl
  swap
  · simp
  rcases subset_map_fst_setCol _ _ _ _ h with h | rfl
  swap
  · simp
  rcases subset_map_fst_setCol _ _ _ _ h with h | rfl
  swap
  · simp
  rcases subset_map_fst_setCol _ _ _ _ h with h | rfl
  swap
  · simp
  rcases subset_map_fst_setCol _ _ _ _ h with h | rfl
  swap
  · simp
  rw [map_fst_zeroRow] at h
  exact Or.inl h

/-! ### Column-name disjointness facts -/

theorem ne_of_data_head (s t : String) (h : s.data.head? ≠ t.data.head?) :
    s ≠ t :=
  fun e => h (by rw [e])

theorem soil_append_head (n : String) :
    ("Soil_Type_" ++ n).data.head? = some 'S' := by
  simp [String.data_append]

theorem crop_append_head (n : String) :
    ("Crop_Type_" ++ n).data.head? = some 'C' := by
  simp [String.data_append]

/-- A soil one-hot column name differs from any name not starting with S. -/
theorem soil_append_ne (n t : String) (h : t.data.head? ≠ some 'S') :
    "Soil_Type_" ++ n ≠ t :=
  ne_of_data_head _ _ (by rw [soil_append_head]; exact fun e => h e.symm)

/-- A crop one-hot column name differs from any name not starting with C. -/
theorem crop_append_ne (n t : String) (h : t.data.head? ≠ some 'C') :
    "Crop_Type_" ++ n ≠ t :=
  ne_of_data_head _ _ (by rw [crop_append_head]; exact fun e => h e.symm)

theorem soil_ne_crop_append (n m : String) :
    "Soil_Type_" ++ n ≠ "Crop_Type_" ++ m :=
  ne_of_data_head _ _ (by rw [soil_append_head, crop_append_head]; decide)

theorem crop_ne_soil_append (n m : String) :
    "Crop_Type_" ++ n ≠ "Soil_Type_" ++ m :=
  ne_of_data_head _ _ (by rw [soil_append_head, crop_append_head]; decide)

/-! ### Truthiness -/

theorem pyFalsy_none : pyFalsy none = true := rfl

theorem pyFalsy_some (s : String) : pyFalsy (some s) = (s == "") := rfl

theorem pyFalsy_some_eq_false (s : String) (h : s ≠ "") :
    pyFalsy (some s) = false := by
  rw [pyFalsy_some]
  exact beq_eq_false_iff_ne.mpr h

/-! ### The stateful handlers only read the shared artifacts -/

theorem recommendSt_state {σ : Type} (st : AppState σ) (d : FertilizerInput) :
    (recommendSt st d).2 = st := by
  dsimp only [recommendSt]
  split
  · rfl
  · split
    · rfl
    · split
      · rfl
      · split <;> rfl

theorem get_categoriesSt_state {σ : Type} (st : AppState σ) :
    (get_categoriesSt st).2 = st := rfl

/-- The state-threaded handler computes the same outcome as the direct one
when the state holds the reverse maps built at startup. -/
theorem recommendSt_fst {σ : Type} (model : σ → Except String Int)
    (scaler : List (String × Int) → Except String σ)
    (cols : List String) (bm : BackendMappings) (d : FertilizerInput) :
    (recommendSt (loadState model scaler cols bm) d).1 =
      recommend_fertilizer bm cols scaler model d := by
  dsimp only [recommendSt, recommend_fertilizer, loadState, reverse_soil_map,
    reverse_crop_map, reverse_fertilizer_map]
  split
  · rfl
  · split
    · rfl
    · split
      · rfl
      · split <;> rfl

/-! ### Claims -/

/-- Claim C1: whenever the Soil_Type_ID or the Crop_Type_ID has no entry in
the corresponding reverse mapping, `recommend_fertilizer` fails with the 400
InvalidCategory rejection; the outcome is the same for *every* scaler and
model, i.e. neither collaborator is invoked. -/
theorem claim_C1 {σ : Type} (m : BackendMappings) (cols : List String)
    (scaler : List (String × Int) → Except String σ)
    (predict : σ → Except String Int) (data : FertilizerInput)
    (h : dictGet (reverse_soil_map m) data.Soil_Type_ID = none ∨
      dictGet (reverse_crop_map m) data.Crop_Type_ID = none) :
    recommend_fertilizer m cols scaler predict data =
      RecOutcome.httpError 400 "Invalid Soil Type or Crop Type ID provided." := by
  simp only [recommend_fertilizer]
  rcases h with h | h <;> rw [h] <;> simp [pyFalsy]

/-- Witness for C1 at the concrete request with Soil_Type_ID 999. -/
theorem claim_C1_witness :
    dictGet (reverse_soil_map exMappings) (999 : Int) = none ∧
    recommend_fertilizer exMappings exSchema exScalerOk exPredict0 exInputBadSoil =
      RecOutcome.httpError 400 "Invalid Soil Type or Crop Type ID provided." :=
  ⟨by decide,
   claim_C1 exMappings exSchema exScalerOk exPredict0 exInputBadSoil
     (Or.inl (by decide))⟩

/-- Claim C3 is false on the code: with two names sharing code 1 the reverse
map construction does not fail — it silently yields a reverse map in which
the later name won. -/
theorem claim_C3_counterexample :
    reverseMap [("A", 1), ("B", 1)] = [(1, "B")] ∧
    dictGet (reverseMap [("A", 1), ("B", 1)]) 1 = some "B" := by
  decide

/-- Claim C3 as amended: the reverse-map construction is total and on a
collision silently keeps the *last* name bearing the code in the forward
mapping (Python dict-comprehension semantics); no error is ever raised. -/
theorem claim_C3 (m : List (String × Int)) (c : Int) :
    dictGet (reverseMap m) c =
      (m.reverse.find? (fun p => p.2 == c)).map Prod.fst :=
  dictGet_reverseMap m c

/-- Claim C9: a request leaves the shared startup artifacts — model, scaler,
column list, forward mappings and the three reverse mappings — unchanged,
for both handlers. -/
theorem claim_C9 {σ : Type} (st : AppState σ) (d : FertilizerInput) :
    (recommendSt st d).2 = st ∧ (get_categoriesSt st).2 = st :=
  ⟨recommendSt_state st d, get_categoriesSt_state st⟩

/-- Claim C10: two consecutive calls with the same input, the second running
on whatever state the first left behind, produce identical outcomes:
`recommend` is a deterministic pure function of the shared state and the
input. -/
theorem claim_C10 {σ : Type} (st : AppState σ) (d : FertilizerInput) :
    (recommendSt ((recommendSt st d).2) d).1 = (recommendSt st d).1 := by
  rw [recommendSt_state]

/-- Claim C2 is false on the code: with the `Temparature` column missing from
the schema, the feature-row construction does not fail — pandas appends the
missing column at the end of the row — and a subsequent scaler exception is
surfaced as a per-request HTTP 500 by the handler's catch-all, not as a
fatal configuration error. -/
theorem claim_C2_counterexample :
    numericRow exSchemaNoTemp exInput =
      [("Humidity", 65), ("Moisture", 54), ("Nitrogen", 38), ("Potassium", 0),
       ("Phosphorous", 0), ("Soil_Type_Loamy", 0), ("Crop_Type_Sugarcane", 0),
       ("Temparature", 34)] ∧
    recommend_fertilizer exMappings exSchemaNoTemp exScalerErr exPredict0 exInput =
      RecOutcome.httpError 500 "An internal server error occurred: Scaler raised" := by
  decide

/-- Claim C2 as amended: for *every* schema, the feature-row construction
never fails — its columns are exactly the schema followed by whichever of
the six numeric column names are missing from the schema, appended in
assignment order (pandas appends on assignment to an absent column).  And
an exception raised by the scaler on a request becomes a per-request HTTP
500 response, not a fatal error. -/
theorem claim_C2 {σ : Type} (m : BackendMappings) (cols : List String)
    (predict : σ → Except String Int) (data : FertilizerInput)
    (s t msg : String)
    (hs : dictGet (reverse_soil_map m) data.Soil_Type_ID = some s) (hs' : s ≠ "")
    (ht : dictGet (reverse_crop_map m) data.Crop_Type_ID = some t) (ht' : t ≠ "") :
    (numericRow cols data).map Prod.fst =
      cols ++ (["Temparature", "Humidity", "Moisture", "Nitrogen", "Potassium",
        "Phosphorous"].filter (fun n => decide (n ∉ cols))) ∧
    recommend_fertilizer m cols (fun _ => (Except.error msg : Except String σ))
        predict data =
      RecOutcome.httpError 500 ("An internal server error occurred: " ++ msg) := by
  constructor
  · have e0 : (zeroRow cols).map Prod.fst =
        cols ++ List.filter (fun n => decide (n ∉ cols)) [] := by
      simp [map_fst_zeroRow]
    have e1 := map_fst_setCol_step cols [] (zeroRow cols)
      "Temparature" data.Temparature e0 (by decide)
    have e2 := map_fst_setCol_step cols ["Temparature"] _
      "Humidity" data.Humidity e1 (by decide)
    have e3 := map_fst_setCol_step cols ["Temparature", "Humidity"] _
      "Moisture" data.Moisture e2 (by decide)
    have e4 := map_fst_setCol_step cols ["Temparature", "Humidity", "Moisture"] _
      "Nitrogen" data.Nitrogen e3 (by decide)
    have e5 := map_fst_setCol_step cols
      ["Temparature", "Humidity", "Moisture", "Nitrogen"] _
      "Potassium" data.Potassium e4 (by decide)
    have e6 := map_fst_setCol_step cols
      ["Temparature", "Humidity", "Moisture", "Nitrogen", "Potassium"] _
      "Phosphorous" data.Phosphorous e5 (by decide)
    exact e6
  · simp only [recommend_fertilizer]
    rw [hs, ht, pyFalsy_some_eq_false s hs', pyFalsy_some_eq_false t ht']
    simp

/-- Witness for the amended C2 at the concrete schema missing `Temparature`
(the missing-column list evaluates to exactly `["Temparature"]` there). -/
theorem claim_C2_witness :
    (numericRow exSchemaNoTemp exInput).map Prod.fst =
      exSchemaNoTemp ++ ["Temparature"] ∧
    recommend_fertilizer exMappings exSchemaNoTemp
        (fun _ => (Except.error "Scaler raised" : Except String (List (String × Int))))
        exPredict0 exInput =
      RecOutcome.httpError 500 ("An internal server error occurred: " ++ "Scaler raised") := by
  have h := claim_C2 exMappings exSchemaNoTemp exPredict0 exInput "Loamy" "Sugarcane"
    "Scaler raised" (by decide) (by decide) (by decide) (by decide)
  refine ⟨?_, h.2⟩
  rw [h.1]
  decide

/-- Claim C6: when the six numeric columns are in the schema (the spec's
startup precondition), the built feature row has exactly the schema's
columns, in schema order, hence exactly `len(schema)` entries — for every
input and resolved category names. -/
theorem claim_C6 (cols : List String) (data : FertilizerInput) (s t : String)
    (hT : "Temparature" ∈ cols) (hH : "Humidity" ∈ cols) (hM : "Moisture" ∈ cols)
    (hN : "Nitrogen" ∈ cols) (hK : "Potassium" ∈ cols) (hP : "Phosphorous" ∈ cols) :
    (buildRow cols data s t).map Prod.fst = cols ∧
    (buildRow cols data s t).length = cols.length := by
  have h := map_fst_buildRow cols data s t
  rw [map_fst_numericRow cols data hT hH hM hN hK hP] at h
  refine ⟨h, ?_⟩
  have h2 : (buildRow cols data s t).length =
      ((buildRow cols data s t).map Prod.fst).length := (List.length_map _ _).symm
  rw [h2, h]

/-- Witness for C6 at the concrete schema and input. -/
theorem claim_C6_witness :
    (buildRow exSchema exInput "Loamy" "Sugarcane").map Prod.fst = exSchema ∧
    (buildRow exSchema exInput "Loamy" "Sugarcane").length = exSchema.length :=
  claim_C6 exSchema exInput "Loamy" "Sugarcane" (by decide) (by decide) (by decide)
    (by decide) (by decide) (by decide)

/-- Claim C8: the lookup checks test Python falsiness rather than key
presence.  An ID whose reverse-mapping entry is the *empty string* is
rejected with the 400 InvalidCategory error even though the entry exists,
and a predicted class whose fertilizer entry is the empty string fails with
the 500 UnmappablePrediction error. -/
theorem claim_C8 {σ : Type} (m : BackendMappings) (cols : List String)
    (scaler : List (String × Int) → Except String σ)
    (predict : σ → Except String Int) (data : FertilizerInput) :
    (dictGet (reverse_soil_map m) data.Soil_Type_ID = some "" →
      recommend_fertilizer m cols scaler predict data =
        RecOutcome.httpError 400 "Invalid Soil Type or Crop Type ID provided.") ∧
    (dictGet (reverse_crop_map m) data.Crop_Type_ID = some "" →
      recommend_fertilizer m cols scaler predict data =
        RecOutcome.httpError 400 "Invalid Soil Type or Crop Type ID provided.") ∧
    (∀ (s t : String) (u : σ) (num : Int),
      dictGet (reverse_soil_map m) data.Soil_Type_ID = some s → s ≠ "" →
      dictGet (reverse_crop_map m) data.Crop_Type_ID = some t → t ≠ "" →
      scaler (buildRow cols data s t) = Except.ok u →
      predict u = Except.ok num →
      dictGet (reverse_fertilizer_map m) num = some "" →
      recommend_fertilizer m cols scaler predict data =
        RecOutcome.httpError 500 "Could not map prediction to a fertilizer name.") := by
  refine ⟨?_, ?_, ?_⟩
  · intro h
    simp only [recommend_fertilizer]
    rw [h]
    simp [pyFalsy]
  · intro h
    simp only [recommend_fertilizer]
    rw [h]
    simp [pyFalsy]
  · intro s t u num hs hs' ht ht' hsc hpr hf
    unfold buildRow at hsc
    simp only [recommend_fertilizer]
    rw [hs, ht, pyFalsy_some_eq_false s hs', pyFalsy_some_eq_false t ht']
    simp only [Bool.or_self, Bool.false_eq_true, if_false, Option.getD_some]
    rw [hsc]
    dsimp only
    rw [hpr]
    dsimp only
    rw [hf]
    simp [pyFalsy]

/-- Witness for C8: with a soil mapping sending code 2 to the empty name the
request is rejected with 400; with a fertilizer mapping sending class 0 to
the empty name the request fails with the 500 mapping error. -/
theorem claim_C8_witness :
    recommend_fertilizer exMappingsEmptySoil exSchema exScalerOk exPredict0 exInput =
      RecOutcome.httpError 400 "Invalid Soil Type or Crop Type ID provided." ∧
    recommend_fertilizer exMappingsEmptyFert exSchema exScalerOk exPredict0 exInput =
      RecOutcome.httpError 500 "Could not map prediction to a fertilizer name." :=
  ⟨(claim_C8 exMappingsEmptySoil exSchema exScalerOk exPredict0 exInput).1 (by decide),
   (claim_C8 exMappingsEmptyFert exSchema exScalerOk exPredict0 exInput).2.2
     "Loamy" "Sugarcane" (buildRow exSchema exInput "Loamy" "Sugarcane") 0
     (by decide) (by decide) (by decide) (by decide) rfl rfl (by decide)⟩

/-- Claim C7: for a request whose category IDs resolve to (truthy) names,
when the scaler and model succeed and the predicted class reverse-maps to a
non-empty name, `recommend_fertilizer` returns exactly that name; and any
name it ever returns is non-empty and is a key of the fertilizer domain's
forward mapping. -/
theorem claim_C7 {σ : Type} (m : BackendMappings) (cols : List String)
    (scaler : List (String × Int) → Except String σ)
    (predict : σ → Except String Int) (data : FertilizerInput) (s t : String)
    (hs : dictGet (reverse_soil_map m) data.Soil_Type_ID = some s) (hs' : s ≠ "")
    (ht : dictGet (reverse_crop_map m) data.Crop_Type_ID = some t) (ht' : t ≠ "") :
    (∀ (u : σ) (num : Int) (name : String),
      scaler (buildRow cols data s t) = Except.ok u →
      predict u = Except.ok num →
      dictGet (reverse_fertilizer_map m) num = some name → name ≠ "" →
      recommend_fertilizer m cols scaler predict data = RecOutcome.ok name) ∧
    (∀ name : String,
      recommend_fertilizer m cols scaler predict data = RecOutcome.ok name →
      name ≠ "" ∧ name ∈ m.fertilizer_map.map Prod.fst) := by
  constructor
  · intro u num name hsc hpr hf hname
    unfold buildRow at hsc
    simp only [recommend_fertilizer]
    rw [hs, ht, pyFalsy_some_eq_false s hs', pyFalsy_some_eq_false t ht']
    simp only [Bool.or_self, Bool.false_eq_true, if_false, Option.getD_some]
    rw [hsc]
    dsimp only
    rw [hpr]
    dsimp only
    rw [hf, pyFalsy_some_eq_false name hname]
    simp
  · intro name h
    simp only [recommend_fertilizer] at h
    rw [hs, ht, pyFalsy_some_eq_false s hs', pyFalsy_some_eq_false t ht'] at h
    simp only [Bool.or_self, Bool.false_eq_true, if_false, Option.getD_some] at h
    cases hsc : scaler (setColIfPresent
        (setColIfPresent (numericRow cols data) ("Soil_Type_" ++ s) 1)
        ("Crop_Type_" ++ t) 1) with
    | error e =>
      rw [hsc] at h
      exact absurd h (by simp)
    | ok u =>
      rw [hsc] at h
      dsimp only at h
      cases hpr : predict u with
      | error e =>
        rw [hpr] at h
        exact absurd h (by simp)
      | ok num =>
        rw [hpr] at h
        dsimp only at h
        cases hrec : dictGet (reverse_fertilizer_map m) num with
        | none =>
          rw [hrec] at h
          simp [pyFalsy] at h
        | some r =>
          rw [hrec] at h
          by_cases hr : r = ""
          · rw [hr] at h
            simp [pyFalsy] at h
          · rw [pyFalsy_some_eq_false r hr] at h
            simp only [Bool.false_eq_true, if_false, Option.getD_some] at h
            cases h
            refine ⟨hr, ?_⟩
            unfold reverse_fertilizer_map at hrec
            exact dictGet_reverseMap_mem _ _ _ hrec

/-- Witness for C7 at the concrete artifacts: the request succeeds with
"Urea", which is non-empty and a fertilizer-domain name. -/
theorem claim_C7_witness :
    recommend_fertilizer exMappings exSchema exScalerOk exPredict0 exInput =
      RecOutcome.ok "Urea" ∧
    "Urea" ≠ "" ∧ "Urea" ∈ exMappings.fertilizer_map.map Prod.fst := by
  have h := claim_C7 exMappings exSchema exScalerOk exPredict0 exInput
    "Loamy" "Sugarcane" (by decide) (by decide) (by decide) (by decide)
  have h1 := h.1 (buildRow exSchema exInput "Loamy" "Sugarcane") 0 "Urea"
    rfl rfl (by decide) (by decide)
  exact ⟨h1, h.2 "Urea" h1⟩

/-- Claim C4: when the derived soil (resp. crop) one-hot column is absent
from the schema, the request is not rejected — every soil-prefixed (resp.
crop-prefixed) column of the built feature row stays 0, and the outcome is
never the 400 InvalidCategory rejection. -/
theorem claim_C4 {σ : Type} (m : BackendMappings) (cols : List String)
    (scaler : List (String × Int) → Except String σ)
    (predict : σ → Except String Int) (data : FertilizerInput) (s t : String)
    (hs : dictGet (reverse_soil_map m) data.Soil_Type_ID = some s) (hs' : s ≠ "")
    (ht : dictGet (reverse_crop_map m) data.Crop_Type_ID = some t) (ht' : t ≠ "") :
    ("Soil_Type_" ++ s ∉ cols →
      ∀ c, c ∈ (buildRow cols data s t).map Prod.fst →
        (∃ n, c = "Soil_Type_" ++ n) → rowGet (buildRow cols data s t) c = 0) ∧
    ("Crop_Type_" ++ t ∉ cols →
      ∀ c, c ∈ (buildRow cols data s t).map Prod.fst →
        (∃ n, c = "Crop_Type_" ++ n) → rowGet (buildRow cols data s t) c = 0) ∧
    recommend_fertilizer m cols scaler predict data ≠
      RecOutcome.httpError 400 "Invalid Soil Type or Crop Type ID provided." := by
  refine ⟨?_, ?_, ?_⟩
  · intro hsoil c hc hex
    obtain ⟨n, rfl⟩ := hex
    have hks : hasKey (numericRow cols data) ("Soil_Type_" ++ s) = false := by
      rw [← Bool.not_eq_true]
      intro hh
      rcases mem_map_fst_numericRow cols data _ ((hasKey_iff_mem _ _).1 hh) with
        h | h | h | h | h | h | h
      · exact hsoil h
      · exact soil_append_ne s "Temparature" (by decide) h
      · exact soil_append_ne s "Humidity" (by decide) h
      · exact soil_append_ne s "Moisture" (by decide) h
      · exact soil_append_ne s "Nitrogen" (by decide) h
      · exact soil_append_ne s "Potassium" (by decide) h
      · exact soil_append_ne s "Phosphorous" (by decide) h
    rw [rowGet_buildRow]
    rw [if_neg (fun hh => soil_ne_crop_append n t hh.1)]
    rw [if_neg (fun hh => by simp [hks] at hh)]
    rw [rowGet_numericRow]
    rw [if_neg (soil_append_ne n "Phosphorous" (by decide)),
      if_neg (soil_append_ne n "Potassium" (by decide)),
      if_neg (soil_append_ne n "Nitrogen" (by decide)),
      if_neg (soil_append_ne n "Moisture" (by decide)),
      if_neg (soil_append_ne n "Humidity" (by decide)),
      if_neg (soil_append_ne n "Temparature" (by decide))]
  · intro hcrop c hc hex
    obtain ⟨n, rfl⟩ := hex
    have hkc : hasKey (numericRow cols data) ("Crop_Type_" ++ t) = false := by
      rw [← Bool.not_eq_true]
      intro hh
      rcases mem_map_fst_numericRow cols data _ ((hasKey_iff_mem _ _).1 hh) with
        h | h | h | h | h | h | h
      · exact hcrop h
      · exact crop_append_ne t "Temparature" (by decide) h
      · exact crop_append_ne t "Humidity" (by decide) h
      · exact crop_append_ne t "Moisture" (by decide) h
      · exact crop_append_ne t "Nitrogen" (by decide) h
      · exact crop_append_ne t "Potassium" (by decide) h
      · exact crop_append_ne t "Phosphorous" (by decide) h
    rw [rowGet_buildRow]
    rw [if_neg (fun hh => by simp [hkc] at hh)]
    rw [if_neg (fun hh => crop_ne_soil_append n s hh.1)]
    rw [rowGet_numericRow]
    rw [if_neg (crop_append_ne n "Phosphorous" (by decide)),
      if_neg (crop_append_ne n "Potassium" (by decide)),
      if_neg (crop_append_ne n "Nitrogen" (by decide)),
      if_neg (crop_append_ne n "Moisture" (by decide)),
      if_neg (crop_append_ne n "Humidity" (by decide)),
      if_neg (crop_append_ne n "Temparature" (by decide))]
  · simp only [recommend_fertilizer]
    rw [hs, ht, pyFalsy_some_eq_false s hs', pyFalsy_some_eq_false t ht']
    simp only [Bool.or_self, Bool.false_eq_true, if_false, Option.getD_some]
    split
    · simp
    · split
      · simp
      · split <;> simp

/-- Witness for C4 at the schema that lacks both the Soil_Type_Loamy and the
Crop_Type_Sugarcane one-hot columns. -/
theorem claim_C4_witness :
    rowGet (buildRow exSchemaNoOneHot exInput "Loamy" "Sugarcane") "Soil_Type_Sandy" = 0 ∧
    rowGet (buildRow exSchemaNoOneHot exInput "Loamy" "Sugarcane") "Crop_Type_Maize" = 0 ∧
    recommend_fertilizer exMappings exSchemaNoOneHot exScalerOk exPredict0 exInput ≠
      RecOutcome.httpError 400 "Invalid Soil Type or Crop Type ID provided." := by
  have h := claim_C4 exMappings exSchemaNoOneHot exScalerOk exPredict0 exInput
    "Loamy" "Sugarcane" (by decide) (by decide) (by decide) (by decide)
  refine ⟨?_, ?_, h.2.2⟩
  · exact h.1 (by decide) "Soil_Type_Sandy" (by decide) ⟨"Sandy", rfl⟩
  · exact h.2.1 (by decide) "Crop_Type_Maize" (by decide) ⟨"Maize", rfl⟩

/-- Claim C5: for the spec's concrete input (34, 65, 54, soil 2, crop 10,
38, 0, 0), with any mapping sending 2 to "Loamy" and 10 to "Sugarcane" and
any schema containing the six numeric columns plus `Soil_Type_Loamy` and
`Crop_Type_Sugarcane`, the builder produces Temparature=34, Humidity=65,
Moisture=54, Nitrogen=38, Potassium=0, Phosphorous=0, Soil_Type_Loamy=1,
Crop_Type_Sugarcane=1, and 0 in every other schema column. -/
theorem claim_C5 (cols : List String) (m : BackendMappings)
    (hT : "Temparature" ∈ cols) (hH : "Humidity" ∈ cols) (hM : "Moisture" ∈ cols)
    (hN : "Nitrogen" ∈ cols) (hK : "Potassium" ∈ cols) (hP : "Phosphorous" ∈ cols)
    (hSL : "Soil_Type_Loamy" ∈ cols) (hCS : "Crop_Type_Sugarcane" ∈ cols)
    (hs : dictGet (reverse_soil_map m) exInput.Soil_Type_ID = some "Loamy")
    (ht : dictGet (reverse_crop_map m) exInput.Crop_Type_ID = some "Sugarcane") :
    rowGet (buildRow cols exInput "Loamy" "Sugarcane") "Temparature" = 34 ∧
    rowGet (buildRow cols exInput "Loamy" "Sugarcane") "Humidity" = 65 ∧
    rowGet (buildRow cols exInput "Loamy" "Sugarcane") "Moisture" = 54 ∧
    rowGet (buildRow cols exInput "Loamy" "Sugarcane") "Nitrogen" = 38 ∧
    rowGet (buildRow cols exInput "Loamy" "Sugarcane") "Potassium" = 0 ∧
    rowGet (buildRow cols exInput "Loamy" "Sugarcane") "Phosphorous" = 0 ∧
    rowGet (buildRow cols exInput "Loamy" "Sugarcane") "Soil_Type_Loamy" = 1 ∧
    rowGet (buildRow cols exInput "Loamy" "Sugarcane") "Crop_Type_Sugarcane" = 1 ∧
    (∀ c, c ∈ cols →
      c ∉ ["Temparature", "Humidity", "Moisture", "Nitrogen", "Potassium",
        "Phosphorous", "Soil_Type_Loamy", "Crop_Type_Sugarcane"] →
      rowGet (buildRow cols exInput "Loamy" "Sugarcane") c = 0) := by
  have hkeys := map_fst_numericRow cols exInput hT hH hM hN hK hP
  have eS : ("Soil_Type_" ++ "Loamy" : String) = "Soil_Type_Loamy" := rfl
  have eC : ("Crop_Type_" ++ "Sugarcane" : String) = "Crop_Type_Sugarcane" := rfl
  have key : ∀ x : String,
      rowGet (buildRow cols exInput "Loamy" "Sugarcane") x =
        if x = "Crop_Type_Sugarcane" ∧
            hasKey (numericRow cols exInput) "Crop_Type_Sugarcane" = true then 1
        else if x = "Soil_Type_Loamy" ∧
            hasKey (numericRow cols exInput) "Soil_Type_Loamy" = true then 1
        else rowGet (numericRow cols exInput) x := by
    intro x
    rw [rowGet_buildRow, eS, eC]
  have hsk : hasKey (numericRow cols exInput) "Soil_Type_Loamy" = true := by
    rw [hasKey_eq_decide, hkeys]
    simpa using hSL
  have hck2 : hasKey (numericRow cols exInput) "Crop_Type_Sugarcane" = true := by
    rw [hasKey_eq_decide, hkeys]
    simpa using hCS
  refine ⟨?_, ?_, ?_, ?_, ?_, ?_, ?_, ?_, ?_⟩
  · rw [key "Temparature", if_neg (fun hh => absurd hh.1 (by decide)),
      if_neg (fun hh => absurd hh.1 (by decide)), rowGet_numericRow]
    decide
  · rw [key "Humidity", if_neg (fun hh => absurd hh.1 (by decide)),
      if_neg (fun hh => absurd hh.1 (by decide)), rowGet_numericRow]
    decide
  · rw [key "Moisture", if_neg (fun hh => absurd hh.1 (by decide)),
      if_neg (fun hh => absurd hh.1 (by decide)), rowGet_numericRow]
    decide
  · rw [key "Nitrogen", if_neg (fun hh => absurd hh.1 (by decide)),
      if_neg (fun hh => absurd hh.1 (by decide)), rowGet_numericRow]
    decide
  · rw [key "Potassium", if_neg (fun hh => absurd hh.1 (by decide)),
      if_neg (fun hh => absurd hh.1 (by decide)), rowGet_numericRow]
    decide
  · rw [key "Phosphorous", if_neg (fun hh => absurd hh.1 (by decide)),
      if_neg (fun hh => absurd hh.1 (by decide)), rowGet_numericRow]
    decide
  · rw [key "Soil_Type_Loamy", if_neg (fun hh => absurd hh.1 (by decide)),
      if_pos ⟨rfl, hsk⟩]
  · rw [key "Crop_Type_Sugarcane", if_pos ⟨rfl, hck2⟩]
  · intro c hc hnot
    simp only [List.mem_cons, List.mem_singleton, not_or] at hnot
    obtain ⟨n1, n2, n3, n4, n5, n6, n7, n8, -⟩ := hnot
    rw [key c, if_neg (fun hh => n8 hh.1), if_neg (fun hh => n7 hh.1),
      rowGet_numericRow, if_neg n6, if_neg n5, if_neg n4, if_neg n3,
      if_neg n2, if_neg n1]

/-- Witness for C5 at the concrete ten-column schema and mapping set. -/
theorem claim_C5_witness :
    rowGet (buildRow exSchema exInput "Loamy" "Sugarcane") "Temparature" = 34 ∧
    rowGet (buildRow exSchema exInput "Loamy" "Sugarcane") "Humidity" = 65 ∧
    rowGet (buildRow exSchema exInput "Loamy" "Sugarcane") "Moisture" = 54 ∧
    rowGet (buildRow exSchema exInput "Loamy" "Sugarcane") "Nitrogen" = 38 ∧
    rowGet (buildRow exSchema exInput "Loamy" "Sugarcane") "Potassium" = 0 ∧
    rowGet (buildRow exSchema exInput "Loamy" "Sugarcane") "Phosphorous" = 0 ∧
    rowGet (buildRow exSchema exInput "Loamy" "Sugarcane") "Soil_Type_Loamy" = 1 ∧
    rowGet (buildRow exSchema exInput "Loamy" "Sugarcane") "Crop_Type_Sugarcane" = 1 ∧
    (∀ c, c ∈ exSchema →
      c ∉ ["Temparature", "Humidity", "Moisture", "Nitrogen", "Potassium",
        "Phosphorous", "Soil_Type_Loamy", "Crop_Type_Sugarcane"] →
      rowGet (buildRow exSchema exInput "Loamy" "Sugarcane") c = 0) :=
  claim_C5 exSchema exMappings (by decide) (by decide) (by decide) (by decide)
    (by decide) (by decide) (by decide) (by decide) (by decide) (by decide)

end AgroFertilizer
